import Mathlib

/-!
Verification of the ugcs micro Google Cloud Storage client (ugcs.py).

This file gives a shallow embedding of the program's data model and
operations and proves/refutes the specification claims about them.
Network and subprocess interactions are modelled by explicit oracles
(the response the network/subprocess would give is a parameter), and
time is a natural-number parameter (Unix epoch seconds).
-/

/-! ## JSON values

The program only ever serializes and parses flat JSON objects whose
members are strings, integers, booleans or null (service-account
credentials, the cached-token record, and the JWT header/claims).  The
model restricts JSON values to this subset used by the program. -/

inductive JScalar where
  | str (s : String)
  | num (n : Int)
  | bool (b : Bool)
  | null
deriving DecidableEq, Repr

inductive JsonVal where
  | scalar (v : JScalar)
  | obj (fields : List (String × JScalar))
deriving DecidableEq, Repr

/-- Field lookup in a JSON object, first match wins (Python dict access). -/
def JsonVal.lookupField : JsonVal → String → Option JScalar
  | .obj fields, k => fields.lookup k
  | .scalar _, _ => none

/-- Lowercase hex digit, as used by the Python json encoder in escapes. -/
def hexLowerDigit (n : Nat) : Char :=
  if n < 10 then Char.ofNat (48 + n) else Char.ofNat (87 + n)

def hex4Lower (n : Nat) : List Char :=
  [hexLowerDigit (n / 4096 % 16), hexLowerDigit (n / 256 % 16),
   hexLowerDigit (n / 16 % 16), hexLowerDigit (n % 16)]

/-- Escaping of one character as done by Python json.dumps with its
default ensure_ascii=True: the two-character shorthands, control
characters and all non-ASCII characters as \uXXXX (with surrogate
pairs above the BMP), printable ASCII unchanged. -/
def jsonEscapeChar (c : Char) : List Char :=
  let n := c.toNat
  if c = '"' then ['\\', '"']
  else if c = '\\' then ['\\', '\\']
  else if n = 10 then ['\\', 'n']
  else if n = 13 then ['\\', 'r']
  else if n = 9 then ['\\', 't']
  else if n = 8 then ['\\', 'b']
  else if n = 12 then ['\\', 'f']
  else if n < 32 ∨ n > 126 then
    if n < 65536 then '\\' :: 'u' :: hex4Lower n
    else
      ('\\' :: 'u' :: hex4Lower (55296 + (n - 65536) / 1024)) ++
      ('\\' :: 'u' :: hex4Lower (56320 + (n - 65536) % 1024))
  else [c]

/-- JSON string literal serialization (quotes plus escaped content). -/
def dumpsString (s : String) : String :=
  String.mk ('"' :: s.data.flatMap jsonEscapeChar ++ ['"'])

def dumpsScalar : JScalar → String
  | .str s => dumpsString s
  | .num n => toString n
  | .bool b => if b then "true" else "false"
  | .null => "null"

def dumpsFields (itemSep kvSep : String) : List (String × JScalar) → String
  | [] => ""
  | [(k, v)] => dumpsString k ++ kvSep ++ dumpsScalar v
  | (k, v) :: rest =>
      dumpsString k ++ kvSep ++ dumpsScalar v ++ itemSep ++ dumpsFields itemSep kvSep rest

/-- Python json.dumps restricted to the flat-object subset, with the
item and key/value separators given explicitly (json.dumps takes them
as its separators argument; the default is item separator comma-space
and key separator colon-space). -/
def dumps (itemSep kvSep : String) : JsonVal → String
  | .scalar v => dumpsScalar v
  | .obj fs => "\x7b" ++ dumpsFields itemSep kvSep fs ++ "\x7d"

/-- json.dumps with separators=(",", ":"), as used by _json_to_b64. -/
def dumpsCompact (j : JsonVal) : String := dumps (",") (":") j

/-- json.dump with default separators, as used when persisting the token. -/
def dumpsDefault (j : JsonVal) : String := dumps (", ") (": ") j

/-! ## UTF-8 encoding (str.encode("utf-8")) -/

def utf8EncodeChar (c : Char) : List Nat :=
  let n := c.toNat
  if n < 128 then [n]
  else if n < 2048 then [192 + n / 64, 128 + n % 64]
  else if n < 65536 then [224 + n / 4096, 128 + n / 64 % 64, 128 + n % 64]
  else [240 + n / 262144, 128 + n / 4096 % 64, 128 + n / 64 % 64, 128 + n % 64]

def utf8Encode (s : String) : List Nat := s.data.flatMap utf8EncodeChar

/-! ## base64.urlsafe_b64encode

Standard base64 with the url-safe alphabet (minus and underscore in
positions 62/63) and with the usual `=` padding, which
base64.urlsafe_b64encode keeps. -/

/-- Character for a 6-bit group of the url-safe base64 alphabet. -/
def sixBitChar (n : Nat) : Char :=
  let i := n % 64
  if i < 26 then Char.ofNat (65 + i)
  else if i < 52 then Char.ofNat (97 + (i - 26))
  else if i < 62 then Char.ofNat (48 + (i - 52))
  else if i = 62 then '-'
  else '_'

def base64UrlEncodeAux : List Nat → List Char
  | b1 :: b2 :: b3 :: rest =>
      sixBitChar (b1 / 4) :: sixBitChar (b1 % 4 * 16 + b2 / 16) ::
      sixBitChar (b2 % 16 * 4 + b3 / 64) :: sixBitChar b3 ::
      base64UrlEncodeAux rest
  | [b1, b2] => [sixBitChar (b1 / 4), sixBitChar (b1 % 4 * 16 + b2 / 16),
                 sixBitChar (b2 % 16 * 4), '=']
  | [b1] => [sixBitChar (b1 / 4), sixBitChar (b1 % 4 * 16), '=', '=']
  | [] => []

def base64UrlEncode (bs : List Nat) : String := String.mk (base64UrlEncodeAux bs)

/-- Membership in the url-safe base64 output alphabet (including the
padding character). -/
def isB64UrlChar (c : Char) : Bool :=
  (65 ≤ c.toNat && c.toNat ≤ 90) || (97 ≤ c.toNat && c.toNat ≤ 122) ||
  (48 ≤ c.toNat && c.toNat ≤ 57) || c = '-' || c = '_' || c = '='

/-! ## Percent-encoding (urllib.parse.quote / quote_plus / urlencode) -/

/-- Bytes urllib.parse.quote never encodes: ASCII letters, digits, and
underscore, dot, hyphen, tilde.  With safe="" these are the only bytes
left unencoded. -/
def isUnreservedByte (b : Nat) : Bool :=
  (65 ≤ b && b ≤ 90) || (97 ≤ b && b ≤ 122) || (48 ≤ b && b ≤ 57) ||
  b = 45 || b = 46 || b = 95 || b = 126

def hexUpperDigit (n : Nat) : Char :=
  if n < 10 then Char.ofNat (48 + n) else Char.ofNat (55 + n)

def percentHex (b : Nat) : List Char :=
  ['%', hexUpperDigit (b / 16 % 16), hexUpperDigit (b % 16)]

def quoteBytes (bs : List Nat) : List Char :=
  bs.flatMap (fun b => if isUnreservedByte b then [Char.ofNat b] else percentHex b)

/-- urllib.parse.quote(s, safe=""): UTF-8 encode, then percent-encode
every byte that is not unreserved (in particular every reserved
character such as the slash). -/
def quote (s : String) : String := String.mk (quoteBytes (utf8Encode s))

/-- urllib.parse.quote_plus(s) with the default empty safe set: as
quote, except the space byte becomes a plus sign. -/
def quotePlus (s : String) : String :=
  String.mk ((utf8Encode s).flatMap (fun b =>
    if b = 32 then ['+']
    else if isUnreservedByte b then [Char.ofNat b]
    else percentHex b))

/-- urllib.parse.urlencode on a one-entry dict. -/
def urlencode1 (k v : String) : String := quotePlus k ++ "=" ++ quotePlus v

/-- urllib.parse.urlencode on a two-entry dict (insertion order kept). -/
def urlencode2 (k1 v1 k2 v2 : String) : String :=
  urlencode1 k1 v1 ++ "&" ++ urlencode1 k2 v2

/-! ## JSON parsing (json.loads / json.load)

Recursive-descent parser for the same flat subset of JSON the program
produces and consumes: a single scalar, or one object whose members
are scalars.  Inputs outside this subset (arrays, nested objects,
fractional numbers) are reported as unparseable, like any other
malformed input; `none` models json.loads raising JSONDecodeError. -/

def skipWs : List Char → List Char
  | [] => []
  | c :: cs =>
    if c.toNat = 32 ∨ c.toNat = 10 ∨ c.toNat = 9 ∨ c.toNat = 13 then skipWs cs
    else c :: cs

def hexCharVal (c : Char) : Option Nat :=
  let n := c.toNat
  if 48 ≤ n ∧ n ≤ 57 then some (n - 48)
  else if 97 ≤ n ∧ n ≤ 102 then some (n - 87)
  else if 65 ≤ n ∧ n ≤ 70 then some (n - 55)
  else none

/-- Parse the remainder of a JSON string literal after its opening
quote, handling the escape sequences json accepts. -/
def parseStringRest : List Char → Option (List Char × List Char)
  | [] => none
  | c :: cs =>
    if c = '"' then some ([], cs)
    else if c = '\\' then
      match cs with
      | [] => none
      | e :: cs2 =>
        if e = '"' ∨ e = '\\' ∨ e = '/' then
          (parseStringRest cs2).map (fun r => (e :: r.1, r.2))
        else if e = 'n' then (parseStringRest cs2).map (fun r => ('\n' :: r.1, r.2))
        else if e = 't' then (parseStringRest cs2).map (fun r => ('\t' :: r.1, r.2))
        else if e = 'r' then (parseStringRest cs2).map (fun r => ('\x0d' :: r.1, r.2))
        else if e = 'b' then (parseStringRest cs2).map (fun r => ('\x08' :: r.1, r.2))
        else if e = 'f' then (parseStringRest cs2).map (fun r => ('\x0c' :: r.1, r.2))
        else if e = 'u' then
          match cs2 with
          | h1 :: h2 :: h3 :: h4 :: cs3 =>
            match hexCharVal h1, hexCharVal h2, hexCharVal h3, hexCharVal h4 with
            | some v1, some v2, some v3, some v4 =>
              (parseStringRest cs3).map (fun r =>
                (Char.ofNat (v1 * 4096 + v2 * 256 + v3 * 16 + v4) :: r.1, r.2))
            | _, _, _, _ => none
          | _ => none
        else none
    else (parseStringRest cs).map (fun r => (c :: r.1, r.2))

def takeDigits : List Char → (List Char × List Char)
  | [] => ([], [])
  | c :: cs =>
    if 48 ≤ c.toNat ∧ c.toNat ≤ 57 then
      let r := takeDigits cs
      (c :: r.1, r.2)
    else ([], c :: cs)

def digitsToNat (ds : List Char) : Nat :=
  ds.foldl (fun a c => a * 10 + (c.toNat - 48)) 0

/-- Parse one scalar JSON value (string, integer, boolean, null). -/
def parseScalar (cs : List Char) : Option (JScalar × List Char) :=
  match skipWs cs with
  | [] => none
  | c :: cs1 =>
    if c = '"' then
      (parseStringRest cs1).map (fun r => (.str (String.mk r.1), r.2))
    else if c = 't' then
      match cs1 with
      | 'r' :: 'u' :: 'e' :: cs2 => some (.bool true, cs2)
      | _ => none
    else if c = 'f' then
      match cs1 with
      | 'a' :: 'l' :: 's' :: 'e' :: cs2 => some (.bool false, cs2)
      | _ => none
    else if c = 'n' then
      match cs1 with
      | 'u' :: 'l' :: 'l' :: cs2 => some (.null, cs2)
      | _ => none
    else if c = '-' then
      let r := takeDigits cs1
      if r.1 = [] then none else some (.num (-(digitsToNat r.1 : Int)), r.2)
    else if 48 ≤ c.toNat ∧ c.toNat ≤ 57 then
      let r := takeDigits (c :: cs1)
      some (.num (digitsToNat r.1 : Int), r.2)
    else none

/-- Parse the members of an object, positioned after the opening brace
(knowing the object is non-empty); fuel bounds the iteration. -/
def parseFieldsAux : Nat → List Char → Option (List (String × JScalar) × List Char)
  | 0, _ => none
  | Nat.succ fuel, cs =>
    match skipWs cs with
    | [] => none
    | c :: cs1 =>
      if c = '"' then
        match parseStringRest cs1 with
        | none => none
        | some (kcs, cs2) =>
          match skipWs cs2 with
          | [] => none
          | c2 :: cs3 =>
            if c2 = ':' then
              match parseScalar cs3 with
              | none => none
              | some (v, cs4) =>
                match skipWs cs4 with
                | [] => none
                | c3 :: cs5 =>
                  if c3 = ',' then
                    (parseFieldsAux fuel cs5).map (fun r =>
                      ((String.mk kcs, v) :: r.1, r.2))
                  else if c3.toNat = 125 then some ([(String.mk kcs, v)], cs5)
                  else none
            else none
      else none

/-- json.loads on the flat subset; `none` models a JSONDecodeError. -/
def jsonParse (s : String) : Option JsonVal :=
  match skipWs s.data with
  | [] => none
  | c :: cs1 =>
    if c.toNat = 123 then
      match skipWs cs1 with
      | [] => none
      | c2 :: cs2 =>
        if c2.toNat = 125 then
          if skipWs cs2 = [] then some (.obj []) else none
        else
          match parseFieldsAux (cs1.length + 1) cs1 with
          | some (fs, rest) => if skipWs rest = [] then some (.obj fs) else none
          | none => none
    else
      match parseScalar (c :: cs1) with
      | some (v, rest) => if skipWs rest = [] then some (.scalar v) else none
      | none => none

/-! ## AccessTokenProvider -/

/-- The provider's immutable configuration, as set by
AccessTokenProvider.__init__ (account, key, kid, expire, token_url). -/
structure AccessTokenProvider where
  account : String
  key : String
  kid : Option String
  expire : Nat
  token_url : String
deriving DecidableEq, Repr

/-- The class-level default token endpoint, _TOKEN_URL. -/
def AccessTokenProvider.TOKEN_URL : String := "https://oauth2.googleapis.com/token"

/-- __init__ called with only the two required arguments, taking the
declared defaults kid=None, expire=60, token_url=_TOKEN_URL. -/
def AccessTokenProvider.mkDefault (account key : String) : AccessTokenProvider :=
  ⟨account, key, none, 60, AccessTokenProvider.TOKEN_URL⟩

/-- Path of the on-disk token cache derived from the account:
xdg cache home, then the ugcs directory, then account + ".token". -/
def AccessTokenProvider.cachedTokenPath (xdgCacheHome account : String) : String :=
  xdgCacheHome ++ "/ugcs/" ++ account ++ ".token"

/-- The cache-file load done at the end of __init__ (lines 77-82 of
ugcs.py): `cacheFileContent` is the content of the cache file when it
exists, `none` when it does not.  The outer Option models whether
construction completes: the code calls json.load with no exception
handler, so an unparseable cache file makes __init__ raise
(`none`); otherwise construction yields the initial in-memory
cached_token (inner Option). -/
def AccessTokenProvider.initCache (cacheFileContent : Option String) :
    Option (Option JsonVal) :=
  match cacheFileContent with
  | none => some none
  | some s =>
    match jsonParse s with
    | some j => some (some j)
    | none => none

/-! ## Credential loading (from_service_account_json) -/

/-- The three runtime shapes the loader distinguishes with isinstance:
a string, a pathlib.Path, or an already-parsed value. -/
inductive PyInput where
  | str (s : String)
  | path (p : String)
  | parsed (j : JsonVal)

/-- What the local variable j refers to when the fields are read:
either a parsed JSON value, or - through the slip on line 94
(`j = json`, which names the json MODULE rather than any parsed
value) - the module object itself. -/
inductive PyJsonRef where
  | val (j : JsonVal)
  | jsonModule

/-- Python subscription j[k] on whatever j refers to: field access on
a parsed object, KeyError when the field is missing, TypeError when j
is not subscriptable (in particular when it is the json module). -/
def pySubscript : PyJsonRef → String → Except String JScalar
  | .val (.obj fields), k =>
    match fields.lookup k with
    | some v => .ok v
    | none => .error ("KeyError: " ++ k)
  | .val (.scalar _), _ => .error ("TypeError: value is not subscriptable")
  | .jsonModule, _ => .error ("TypeError: module object is not subscriptable")

/-- A scalar read from the credentials must be a string to serve as a
constructor argument; anything else is modelled as a type error. -/
def pyAsString : JScalar → Except String String
  | .str s => .ok s
  | _ => .error ("TypeError: expected str")

/-- Control flow of from_service_account_json (lines 84-94): a string
input is first tried as JSON text and demoted to a Path on parse
failure; then a Path is read and parsed; any input that is NOT a Path
at that point - a string that parsed as JSON, or a pre-parsed value -
reaches the else branch `j = json`, which binds the json module.
`files` maps a path to its content (`none` models an IO error). -/
def resolveJ (files : String → Option String) : PyInput → Except String PyJsonRef
  | .str s =>
    match jsonParse s with
    | some _ =>
      -- json_obj is still the str, not a Path: the else branch runs.
      .ok .jsonModule
    | none =>
      match files s with
      | none => .error ("FileNotFoundError: " ++ s)
      | some txt =>
        match jsonParse txt with
        | some j => .ok (.val j)
        | none => .error ("json.decoder.JSONDecodeError")
  | .path p =>
    match files p with
    | none => .error ("FileNotFoundError: " ++ p)
    | some txt =>
      match jsonParse txt with
      | some j => .ok (.val j)
      | none => .error ("json.decoder.JSONDecodeError")
  | .parsed _ => .ok .jsonModule

/-- from_service_account_json (lines 84-100): resolve j, then build
the provider from j["client_email"], j["private_key"] with
kid=j["private_key_id"] and token_url=j["token_uri"] (expire keeps
its default 60). -/
def AccessTokenProvider.from_service_account_json
    (files : String → Option String) (input : PyInput) :
    Except String AccessTokenProvider := do
  let j ← resolveJ files input
  let ce ← pyAsString (← pySubscript j ("client_email"))
  let pk ← pyAsString (← pySubscript j ("private_key"))
  let kid ← pyAsString (← pySubscript j ("private_key_id"))
  let tu ← pyAsString (← pySubscript j ("token_uri"))
  return ⟨ce, pk, some kid, 60, tu⟩

/-! ## Assertion signing (_create_jwt, _jwt_sign_b64) -/

/-- Outcome of the openssl signing subprocess run by _jwt_sign_b64:
its exit status, captured standard output and captured standard
error. -/
structure SubprocessResult where
  exitCode : Int
  stdout : List Nat
  stderr : List Nat
deriving DecidableEq, Repr

/-- _json_to_b64 (lines 41-43): compact-separator json.dumps, UTF-8
encode, url-safe base64. -/
def _json_to_b64 (j : JsonVal) : String :=
  base64UrlEncode (utf8Encode (dumpsCompact j))

/-- _jwt_sign_b64 (lines 45-52) given the completed subprocess run: the
function reads neither the exit status nor standard error and raises
nothing; it returns the url-safe base64 encoding of whatever the
command wrote to standard output. -/
def _jwt_sign_b64 (p : SubprocessResult) : String :=
  base64UrlEncode p.stdout

/-- The JWT header built by _create_jwt: alg and typ, plus kid when
the provider has one. -/
def jwtHeader (p : AccessTokenProvider) : JsonVal :=
  .obj ([("alg", .str ("RS256")), ("typ", .str ("JWT"))] ++
    match p.kid with
    | some k => [("kid", .str k)]
    | none => [])

/-- The JWT claims set built by _create_jwt (lines 107-113).  Note the
aud member is the string literal from line 110, not the provider's
token_url. -/
def jwtClaim (p : AccessTokenProvider) (unix_time : Nat) : JsonVal :=
  .obj [("iss", .str p.account),
        ("scope", .str ("https://www.googleapis.com/auth/devstorage.read_write")),
        ("aud", .str ("https://oauth2.googleapis.com/token")),
        ("iat", .num (unix_time : Int)),
        ("exp", .num ((unix_time + p.expire : Nat) : Int))]

/-- _create_jwt (lines 102-118): payload is b64(header) "." b64(claims);
the signature is the signing subprocess run on exactly that payload
(`run` maps the bytes passed on stdin, here as the payload string, to
the subprocess outcome). -/
def _create_jwt (p : AccessTokenProvider) (unix_time : Nat)
    (run : String → SubprocessResult) : String :=
  let payload := _json_to_b64 (jwtHeader p) ++ "." ++ _json_to_b64 (jwtClaim p unix_time)
  payload ++ "." ++ _jwt_sign_b64 (run payload)

/-! ## Token request and caching (request_token) -/

/-- A token-exchange response as used by the program: the fields of
the JSON body that request_token reads. -/
structure TokenResponse where
  access_token : String
  token_type : String
  expires_in : Nat
deriving DecidableEq, Repr

/-- The cached-token record: the exchange response plus the expires_at
field request_token adds. -/
structure CachedToken where
  access_token : String
  token_type : String
  expires_in : Nat
  expires_at : Nat
deriving DecidableEq, Repr

/-- JSON serialization of the cached-token record written to disk. -/
def CachedToken.toJson (t : CachedToken) : JsonVal :=
  .obj [("access_token", .str t.access_token),
        ("token_type", .str t.token_type),
        ("expires_in", .num (t.expires_in : Int)),
        ("expires_at", .num (t.expires_at : Int))]

/-- Result of one request_token call: the in-memory cached token
afterwards, the cache-file content afterwards, the returned token and
how many token exchanges were performed. -/
structure RTResult where
  cached_token : Option CachedToken
  disk : Option String
  token : CachedToken
  exchanges : Nat
deriving DecidableEq, Repr

/-- request_token (lines 141-160) on the success path: drop the cached
token when now + 3 >= its expires_at; when no usable token remains,
perform one exchange (`resp` is the parsed response the network would
return), set expires_at = expires_in + now, persist the record, and
return it; otherwise return the cached token and touch nothing. -/
def AccessTokenProvider.request_token (now : Nat) (resp : TokenResponse)
    (cached : Option CachedToken) (disk : Option String) : RTResult :=
  let cached1 : Option CachedToken :=
    match cached with
    | some t => if t.expires_at ≤ now + 3 then none else some t
    | none => none
  match cached1 with
  | some t => ⟨some t, disk, t, 0⟩
  | none =>
    let t : CachedToken :=
      ⟨resp.access_token, resp.token_type, resp.expires_in, resp.expires_in + now⟩
    ⟨some t, some (dumpsDefault t.toJson), t, 1⟩

/-! ## Cache persistence (lines 148-158)

The write runs inside `with tempfile.NamedTemporaryFile(...)`; the
call passes NO dir argument, so the temporary file is created in
tempfile.gettempdir() - the system temporary directory - not in the
cache directory.  The body is dump, flush, fsync, os.replace, with an
except clause that unlinks the temporary file and re-raises.  The
model records the filesystem actions as a trace and lets a failure be
injected at each of the four fallible steps. -/

inductive PersistStep where
  | dumpStep
  | flushStep
  | fsyncStep
  | replaceStep
deriving DecidableEq, Repr

inductive FsEvent where
  | createTemp (dir name : String)
  | writeTemp (path content : String)
  | flushTemp
  | fsyncTemp
  | replaceFile (src dst : String)
  | unlinkFile (path : String)
deriving DecidableEq, Repr

/-- Environment of one persistence attempt: the system temporary
directory (tempfile.gettempdir()), the name NamedTemporaryFile picks,
the canonical cache file path, and the first step made to fail
(`none` for a run where every step succeeds). -/
structure PersistEnv where
  sysTmpDir : String
  tmpName : String
  cachePath : String
  failAt : Option PersistStep
deriving DecidableEq, Repr

/-- Outcome of one persistence attempt: the filesystem actions in
order, whether an exception propagated out, the content of the
canonical cache file afterwards, and whether the temporary file still
exists afterwards. -/
structure PersistResult where
  trace : List FsEvent
  raised : Bool
  cacheContent : Option String
  tmpExists : Bool
deriving DecidableEq, Repr

/-- os.path.dirname. -/
def dirname (p : String) : String :=
  String.mk (((p.data.reverse.dropWhile (fun c => c ≠ '/')).drop 1).reverse)

/-- The persistence sequence of request_token (lines 148-158), run
against a prior cache-file content with `content` to be written.  On
the success path the temporary file is created, written, flushed,
fsynced and atomically moved over the cache path; on a failure at any
step the except clause unlinks the temporary file and the exception
propagates, leaving the canonical cache file with its prior
content. -/
def persistToken (env : PersistEnv) (prior : Option String) (content : String) :
    PersistResult :=
  let tmpPath := env.sysTmpDir ++ "/" ++ env.tmpName
  let created := [FsEvent.createTemp env.sysTmpDir env.tmpName]
  match env.failAt with
  | some .dumpStep =>
      ⟨created ++ [.unlinkFile tmpPath], true, prior, false⟩
  | some .flushStep =>
      ⟨created ++ [.writeTemp tmpPath content, .unlinkFile tmpPath], true, prior, false⟩
  | some .fsyncStep =>
      ⟨created ++ [.writeTemp tmpPath content, .flushTemp, .unlinkFile tmpPath],
       true, prior, false⟩
  | some .replaceStep =>
      ⟨created ++ [.writeTemp tmpPath content, .flushTemp, .fsyncTemp,
                   .unlinkFile tmpPath],
       true, prior, false⟩
  | none =>
      ⟨created ++ [.writeTemp tmpPath content, .flushTemp, .fsyncTemp,
                   .replaceFile tmpPath env.cachePath],
       false, some content, false⟩

/-! ## Bucket (storage client) -/

/-- An HTTP request as assembled by the Bucket methods: URL, headers
in insertion order, effective method and body. -/
structure HttpRequest where
  url : String
  headers : List (String × String)
  method : String
  body : Option (List Nat)
deriving DecidableEq, Repr

def Bucket.STORAGE_URL : String := "https://storage.googleapis.com/storage/v1"

def Bucket.UPLOAD_URL : String := "https://storage.googleapis.com/upload/storage/v1"

/-- URL of Bucket.list (lines 182-185): objects endpoint, with a
prefix query parameter when a non-empty prefix is given (the code
guard `if prefix:` is Python truthiness, so an empty string behaves
like no prefix). -/
def Bucket.listUrl (name : String) (pre : Option String) : String :=
  let base := Bucket.STORAGE_URL ++ "/b/" ++ name ++ "/o"
  match pre with
  | some p => if p = "" then base else base ++ "?" ++ urlencode1 ("prefix") p
  | none => base

/-- URL of Bucket.put (lines 192-201): upload endpoint with
uploadType=media and name=path query parameters (urlencoded). -/
def Bucket.putUrl (name path : String) : String :=
  Bucket.UPLOAD_URL ++ "/b/" ++ name ++ "/o?" ++
    urlencode2 ("uploadType") ("media") ("name") path

/-- URL of Bucket.get (line 212): object endpoint with the path
percent-encoded with quote(path, safe="") and alt=media appended. -/
def Bucket.getUrl (name path : String) : String :=
  Bucket.STORAGE_URL ++ "/b/" ++ name ++ "/o/" ++ quote path ++ "?alt=media"

/-- URL of Bucket.get_metadata (line 220): object endpoint with the
path percent-encoded with quote(path, safe=""). -/
def Bucket.getMetadataUrl (name path : String) : String :=
  Bucket.STORAGE_URL ++ "/b/" ++ name ++ "/o/" ++ quote path

/-- URL of Bucket.delete (line 228): same object endpoint as
get_metadata; the method is then set to DELETE. -/
def Bucket.deleteUrl (name path : String) : String :=
  Bucket.STORAGE_URL ++ "/b/" ++ name ++ "/o/" ++ quote path

/-- Bucket._authorized_request (lines 172-180): obtain a token from
the provider with request_token, then build the request for `url`
with the Authorization and Accept-Encoding headers.  The provider
state (cached token and cache file) and the exchange oracle are
passed explicitly; the updated provider state is returned with the
request. -/
def Bucket._authorized_request (now : Nat) (resp : TokenResponse)
    (cached : Option CachedToken) (disk : Option String) (url : String) :
    HttpRequest × RTResult :=
  let r := AccessTokenProvider.request_token now resp cached disk
  (⟨url,
    [("Authorization", r.token.token_type ++ " " ++ r.token.access_token),
     ("Accept-Encoding", "gzip, identity")],
    "GET", none⟩,
   r)

/-- Bucket.list request assembly (lines 182-187). -/
def Bucket.listRequest (name : String) (now : Nat) (resp : TokenResponse)
    (cached : Option CachedToken) (disk : Option String) (pre : Option String) :
    HttpRequest × RTResult :=
  Bucket._authorized_request now resp cached disk (Bucket.listUrl name pre)

/-- Bucket.put request assembly (lines 191-205): the authorized
request for the upload URL, the two extra headers appended with
add_header, and the body attached (urllib sends a request with a body
as POST). -/
def Bucket.putRequest (name : String) (now : Nat) (resp : TokenResponse)
    (cached : Option CachedToken) (disk : Option String)
    (path : String) (payload : List Nat) (content_type : String) :
    HttpRequest × RTResult :=
  let pr := Bucket._authorized_request now resp cached disk (Bucket.putUrl name path)
  ({ pr.1 with
      headers := pr.1.headers ++
        [("Content-Type", content_type), ("Content-Transfer-Encoding", "binary")],
      method := "POST",
      body := some payload },
   pr.2)

/-- Bucket.get request assembly (lines 210-213). -/
def Bucket.getRequest (name : String) (now : Nat) (resp : TokenResponse)
    (cached : Option CachedToken) (disk : Option String) (path : String) :
    HttpRequest × RTResult :=
  Bucket._authorized_request now resp cached disk (Bucket.getUrl name path)

/-- Bucket.get_metadata request assembly (lines 218-221). -/
def Bucket.getMetadataRequest (name : String) (now : Nat) (resp : TokenResponse)
    (cached : Option CachedToken) (disk : Option String) (path : String) :
    HttpRequest × RTResult :=
  Bucket._authorized_request now resp cached disk (Bucket.getMetadataUrl name path)

/-- Bucket.delete request assembly (lines 226-230): the authorized
request with the method overridden to DELETE. -/
def Bucket.deleteRequest (name : String) (now : Nat) (resp : TokenResponse)
    (cached : Option CachedToken) (disk : Option String) (path : String) :
    HttpRequest × RTResult :=
  let pr := Bucket._authorized_request now resp cached disk (Bucket.deleteUrl name path)
  ({ pr.1 with method := "DELETE" }, pr.2)

/-! ## Helper lemmas -/

theorem data_append (s t : String) : (s ++ t).data = s.data ++ t.data := rfl

theorem sixBitChar_b64 (n : Nat) : isB64UrlChar (sixBitChar n) = true := by
  have h : n % 64 < 64 := Nat.mod_lt _ (by decide)
  have h2 : n % 64 % 64 = n % 64 := by omega
  have e : sixBitChar n = sixBitChar (n % 64) := by
    simp [sixBitChar, h2]
  rw [e]
  exact (by decide : ∀ i, i < 64 → isB64UrlChar (sixBitChar i) = true) _ h

theorem isB64UrlChar_pad : isB64UrlChar '=' = true := by decide

theorem b64Aux_all : ∀ bs : List Nat, (base64UrlEncodeAux bs).all isB64UrlChar = true := by
  intro bs
  induction bs using base64UrlEncodeAux.induct with
  | case1 b1 b2 b3 rest ih =>
      simp [base64UrlEncodeAux, List.all_cons, sixBitChar_b64, ih]
  | case2 b1 b2 =>
      simp [base64UrlEncodeAux, List.all_cons, sixBitChar_b64, isB64UrlChar_pad]
  | case3 b1 =>
      simp [base64UrlEncodeAux, List.all_cons, sixBitChar_b64, isB64UrlChar_pad]
  | case4 =>
      rfl

theorem b64Aux_length :
    ∀ bs : List Nat, (base64UrlEncodeAux bs).length = 4 * ((bs.length + 2) / 3) := by
  intro bs
  induction bs using base64UrlEncodeAux.induct with
  | case1 b1 b2 b3 rest ih =>
      simp [base64UrlEncodeAux, List.length_cons, ih]
      omega
  | case2 b1 b2 => simp [base64UrlEncodeAux]
  | case3 b1 => simp [base64UrlEncodeAux]
  | case4 => rfl

theorem all_not_contains (p : Char → Bool) (x : Char) (hx : p x = false) :
    ∀ l : List Char, l.all p = true → l.contains x = false := by
  intro l
  induction l with
  | nil => intro _; rfl
  | cons a t ih =>
      intro h
      simp only [List.all_cons, Bool.and_eq_true] at h
      have hne : ¬ (x = a) := by
        intro he
        rw [he, h.1] at hx
        cases hx
      have ht := ih h.2
      simp [List.contains_cons, beq_iff_eq, hne]
      simpa using ht

theorem all_count_zero (p : Char → Bool) (x : Char) (hx : p x = false) :
    ∀ l : List Char, l.all p = true → l.count x = 0 := by
  intro l
  induction l with
  | nil => intro _; rfl
  | cons a t ih =>
      intro h
      simp only [List.all_cons, Bool.and_eq_true] at h
      have hne : ¬ (x = a) := by
        intro he
        rw [he, h.1] at hx
        cases hx
      simp [List.count_cons, beq_iff_eq, hne, Ne.symm hne, ih h.2]

/-- Characters that can appear in the output of quote with an empty
safe set: unreserved bytes verbatim, plus the percent sign and the
(unreserved) uppercase hex digits of an escape. -/
def isQuoteOutputChar (c : Char) : Bool :=
  isUnreservedByte c.toNat || c = '%'

set_option maxRecDepth 4096 in
theorem quoteByte_chars :
    ∀ b, b < 256 →
      ((if isUnreservedByte b then [Char.ofNat b] else percentHex b).all
        isQuoteOutputChar) = true := by
  decide

theorem utf8EncodeChar_lt (c : Char) : ∀ b ∈ utf8EncodeChar c, b < 256 := by
  have hv : c.toNat < 1114112 := by
    rcases c.valid with h | h
    · exact Nat.lt_trans h (by decide)
    · exact h.2
  intro b hb
  unfold utf8EncodeChar at hb
  by_cases h1 : c.toNat < 128
  · simp [h1] at hb
    omega
  · by_cases h2 : c.toNat < 2048
    · simp [h1, h2] at hb
      rcases hb with hb | hb <;> omega
    · by_cases h3 : c.toNat < 65536
      · simp [h1, h2, h3] at hb
        rcases hb with hb | hb | hb <;> omega
      · simp [h1, h2, h3] at hb
        rcases hb with hb | hb | hb | hb <;> omega

theorem utf8Encode_lt (s : String) : ∀ b ∈ utf8Encode s, b < 256 := by
  intro b hb
  simp [utf8Encode, List.mem_flatMap] at hb
  obtain ⟨c, _, hc⟩ := hb
  exact utf8EncodeChar_lt c b hc

theorem quoteBytes_chars :
    ∀ bs : List Nat, (∀ b ∈ bs, b < 256) →
      (quoteBytes bs).all isQuoteOutputChar = true := by
  intro bs
  induction bs with
  | nil => intro _; rfl
  | cons b t ih =>
      intro h
      have hb := h b (by simp)
      have ht : ∀ x ∈ t, x < 256 := fun x hx => h x (by simp [hx])
      simp only [quoteBytes, List.flatMap_cons, List.all_append]
      rw [Bool.and_eq_true]
      exact ⟨quoteByte_chars b hb, ih ht⟩

/-! ## Claim theorems -/

/-- Claim C1: for every provider state holding a cached token whose
expires_at is more than 3 seconds after the current time,
request_token() returns that cached token, performs no token-exchange
network call, and leaves the in-memory cached token and the on-disk
cache file unchanged. -/
theorem C1_cached_token_hit (now : Nat) (resp : TokenResponse) (t : CachedToken)
    (disk : Option String) (h : now + 3 < t.expires_at) :
    AccessTokenProvider.request_token now resp (some t) disk =
      ⟨some t, disk, t, 0⟩ := by
  have h2 : ¬ (t.expires_at ≤ now + 3) := by omega
  simp [AccessTokenProvider.request_token, h2]

/-- Witness for C1 at a concrete state: a token expiring at 200 seen
at time 100 is served from cache with no exchange and no writes. -/
theorem C1_cached_token_hit_witness :
    100 + 3 < 200 ∧
    AccessTokenProvider.request_token 100 ⟨"newtok", "Bearer", 3600⟩
        (some ⟨"cachedtok", "Bearer", 3600, 200⟩) (some ("oldcontent")) =
      ⟨some ⟨"cachedtok", "Bearer", 3600, 200⟩, some ("oldcontent"),
       ⟨"cachedtok", "Bearer", 3600, 200⟩, 0⟩ :=
  ⟨by decide,
   C1_cached_token_hit 100 ⟨"newtok", "Bearer", 3600⟩
     ⟨"cachedtok", "Bearer", 3600, 200⟩ (some ("oldcontent")) (by decide)⟩

/-- Claim C2: for every provider state holding no cached token, or a
cached token whose expires_at is within 3 seconds of the current time
or in the past, request_token() performs exactly one token exchange
and returns a token whose expires_at equals the current time plus the
expires_in value reported in the exchange response. -/
theorem C2_refresh_on_expiry (now : Nat) (resp : TokenResponse)
    (cached : Option CachedToken) (disk : Option String)
    (h : ∀ t, cached = some t → t.expires_at ≤ now + 3) :
    (AccessTokenProvider.request_token now resp cached disk).exchanges = 1 ∧
    (AccessTokenProvider.request_token now resp cached disk).token.expires_at =
      now + resp.expires_in := by
  cases cached with
  | none =>
      refine ⟨rfl, ?_⟩
      simp [AccessTokenProvider.request_token]
      omega
  | some t =>
      have h2 : t.expires_at ≤ now + 3 := h t rfl
      refine ⟨?_, ?_⟩ <;> simp [AccessTokenProvider.request_token, h2]
      omega

/-- Witness for C2 at a concrete state: a token expiring at 103 seen
at time 100 triggers one exchange and the new expiry is 100 + 3600. -/
theorem C2_refresh_on_expiry_witness :
    (∀ t : CachedToken,
        (some (⟨"cachedtok", "Bearer", 3600, 103⟩ : CachedToken) :
          Option CachedToken) = some t → t.expires_at ≤ 100 + 3) ∧
    ((AccessTokenProvider.request_token 100 ⟨"newtok", "Bearer", 3600⟩
        (some ⟨"cachedtok", "Bearer", 3600, 103⟩) none).exchanges = 1 ∧
     (AccessTokenProvider.request_token 100 ⟨"newtok", "Bearer", 3600⟩
        (some ⟨"cachedtok", "Bearer", 3600, 103⟩) none).token.expires_at =
       100 + 3600) := by
  have hh : ∀ t : CachedToken,
      (some (⟨"cachedtok", "Bearer", 3600, 103⟩ : CachedToken) :
        Option CachedToken) = some t → t.expires_at ≤ 100 + 3 := by
    intro t ht
    cases ht
    decide
  exact ⟨hh, C2_refresh_on_expiry 100 ⟨"newtok", "Bearer", 3600⟩ _ none hh⟩

/-- Counterexample to claim C3 as stated: the temporary file is NOT
created in the cache directory.  NamedTemporaryFile is called without
a dir argument, so the very first filesystem action of the
persistence sequence creates the temporary file in the system
temporary directory, which differs from the cache file's directory in
this concrete configuration. -/
theorem C3_tempdir_counterexample :
    (persistToken ⟨"/tmp", "tmpabc123", "/home/user/.cache/ugcs/acct.token", none⟩
        (some ("oldcontent")) ("newcontent")).trace.head? =
      some (FsEvent.createTemp ("/tmp") ("tmpabc123")) ∧
    dirname ("/home/user/.cache/ugcs/acct.token") = "/home/user/.cache/ugcs" ∧
    ("/tmp" : String) ≠ "/home/user/.cache/ugcs" :=
  ⟨rfl, rfl, by decide⟩

/-- Claim C3, amended: during every token refresh the new token is
written to a temporary file created in the system temporary directory
(not the cache directory); on the success path it is written, flushed,
forced to stable storage and atomically moved over the canonical cache
file; if any step fails, the temporary file is removed, the failure
propagates, and the canonical cache file retains its prior content. -/
theorem C3_persist_atomic (tmpD tmpN cacheP content : String)
    (prior : Option String) (s : PersistStep) :
    persistToken ⟨tmpD, tmpN, cacheP, none⟩ prior content =
      ⟨[.createTemp tmpD tmpN, .writeTemp (tmpD ++ "/" ++ tmpN) content,
        .flushTemp, .fsyncTemp, .replaceFile (tmpD ++ "/" ++ tmpN) cacheP],
       false, some content, false⟩ ∧
    (persistToken ⟨tmpD, tmpN, cacheP, some s⟩ prior content).raised = true ∧
    (persistToken ⟨tmpD, tmpN, cacheP, some s⟩ prior content).cacheContent = prior ∧
    (persistToken ⟨tmpD, tmpN, cacheP, some s⟩ prior content).tmpExists = false ∧
    (persistToken ⟨tmpD, tmpN, cacheP, some s⟩ prior content).trace.getLast? =
      some (.unlinkFile (tmpD ++ "/" ++ tmpN)) ∧
    (persistToken ⟨tmpD, tmpN, cacheP, some s⟩ prior content).trace.head? =
      some (.createTemp tmpD tmpN) := by
  cases s <;> exact ⟨rfl, rfl, rfl, rfl, rfl, rfl⟩

/-- Counterexample to claim C4 as stated: with an unparseable cache
file, construction does not succeed in the no-cached-token state; the
json.load call has no handler, so __init__ propagates the parse
error. -/
theorem C4_corrupt_cache_raises :
    AccessTokenProvider.initCache (some ("garbage")) = none ∧
    AccessTokenProvider.initCache (some ("garbage")) ≠ some none :=
  ⟨rfl, by decide⟩

/-- Claim C4, amended: for every cache file whose content is not
valid JSON, constructing the token provider fails, propagating the
parse error to the caller instead of recovering. -/
theorem C4_parse_failure_propagates (s : String) (h : jsonParse s = none) :
    AccessTokenProvider.initCache (some s) = none := by
  simp [AccessTokenProvider.initCache, h]

/-- Witness for C4 at a concrete unparseable cache-file content. -/
theorem C4_parse_failure_propagates_witness :
    jsonParse ("garbage") = none ∧
    AccessTokenProvider.initCache (some ("garbage")) = none :=
  ⟨rfl, C4_parse_failure_propagates ("garbage") rfl⟩

/-- Claim C5, code evaluation at the failing inputs: a string that
parses as JSON, and an already-parsed structure, both reach the else
branch `j = json` of from_service_account_json, which binds the json
MODULE instead of the parsed credentials, so subscripting fails with a
TypeError instead of building the provider; only the file-path route
builds the provider from the parsed fields. -/
theorem C5_module_subscript_failure :
    jsonParse ("\x7b\"client_email\":\"a@b\",\"private_key\":\"K\",\"private_key_id\":\"I\",\"token_uri\":\"https://t.example/tok\"\x7d") =
      some (JsonVal.obj [("client_email", .str ("a@b")), ("private_key", .str ("K")),
        ("private_key_id", .str ("I")), ("token_uri", .str ("https://t.example/tok"))]) ∧
    AccessTokenProvider.from_service_account_json (fun _ => none)
        (.str ("\x7b\"client_email\":\"a@b\",\"private_key\":\"K\",\"private_key_id\":\"I\",\"token_uri\":\"https://t.example/tok\"\x7d")) =
      .error ("TypeError: module object is not subscriptable") ∧
    AccessTokenProvider.from_service_account_json (fun _ => none)
        (.parsed (JsonVal.obj [("client_email", .str ("a@b")), ("private_key", .str ("K")),
          ("private_key_id", .str ("I")), ("token_uri", .str ("https://t.example/tok"))])) =
      .error ("TypeError: module object is not subscriptable") ∧
    AccessTokenProvider.from_service_account_json
        (fun p => if p = "/tmp/sa.json" then
          some ("\x7b\"client_email\":\"a@b\",\"private_key\":\"K\",\"private_key_id\":\"I\",\"token_uri\":\"https://t.example/tok\"\x7d")
          else none)
        (.str ("/tmp/sa.json")) =
      .ok ⟨"a@b", "K", some ("I"), 60, "https://t.example/tok"⟩ :=
  ⟨rfl, rfl, rfl, rfl⟩

/-- Counterexample to claim C6 as stated: the audience member of the
claims set is the hardcoded string literal of line 110, not the
provider's configured token endpoint; for a provider configured with a
different token_url the two differ. -/
theorem C6_aud_ignores_token_url :
    (jwtClaim ⟨"a@b", "K", none, 60, "https://example.com/token"⟩ 0).lookupField ("aud") =
      some (JScalar.str ("https://oauth2.googleapis.com/token")) ∧
    (jwtClaim ⟨"a@b", "K", none, 60, "https://example.com/token"⟩ 0).lookupField ("aud") ≠
      some (JScalar.str ("https://example.com/token")) :=
  ⟨rfl, by decide⟩

/-- Claim C6, amended: for every signed assertion produced, the claims
set has issuer equal to the provider's account identifier, scope equal
to the fixed read/write object-storage scope string, audience equal to
the fixed default token endpoint string (regardless of the configured
token endpoint), issued-at equal to the current Unix time, and expiry
equal to issued-at plus the configured lifetime, which defaults to
60 seconds. -/
theorem C6_claim_fields (account key : String) (kid : Option String)
    (expire : Nat) (token_url : String) (now : Nat) :
    (jwtClaim ⟨account, key, kid, expire, token_url⟩ now).lookupField ("iss") =
      some (.str account) ∧
    (jwtClaim ⟨account, key, kid, expire, token_url⟩ now).lookupField ("scope") =
      some (.str ("https://www.googleapis.com/auth/devstorage.read_write")) ∧
    (jwtClaim ⟨account, key, kid, expire, token_url⟩ now).lookupField ("aud") =
      some (.str ("https://oauth2.googleapis.com/token")) ∧
    (jwtClaim ⟨account, key, kid, expire, token_url⟩ now).lookupField ("iat") =
      some (.num (now : Int)) ∧
    (jwtClaim ⟨account, key, kid, expire, token_url⟩ now).lookupField ("exp") =
      some (.num ((now + expire : Nat) : Int)) ∧
    (AccessTokenProvider.mkDefault account key).expire = 60 :=
  ⟨rfl, rfl, rfl, rfl, rfl, rfl⟩

/-- Counterexample to claim C7 as stated: parts keep their base64
padding characters.  For a provider with a key identifier the header
JSON is 38 bytes, so its url-safe base64 encoding ends in '=', and
that encoding is precisely the first dot-separated part of the
produced assertion. -/
theorem C7_padding_counterexample :
    (_json_to_b64 (jwtHeader ⟨"a@b", "K", some ("k1"), 60,
        AccessTokenProvider.TOKEN_URL⟩)).data.contains '=' = true ∧
    _create_jwt ⟨"a@b", "K", some ("k1"), 60, AccessTokenProvider.TOKEN_URL⟩ 0
        (fun _ => ⟨0, [1, 2, 3], []⟩) =
      _json_to_b64 (jwtHeader ⟨"a@b", "K", some ("k1"), 60,
        AccessTokenProvider.TOKEN_URL⟩) ++ "." ++
      _json_to_b64 (jwtClaim ⟨"a@b", "K", some ("k1"), 60,
        AccessTokenProvider.TOKEN_URL⟩ 0) ++ "." ++
      base64UrlEncode [1, 2, 3] :=
  ⟨rfl, rfl⟩

/-- Claim C7, amended: every assertion produced by the signer is three
dot-separated parts (header, claims, signature), where each part is
the url-safe-base64 encoding - with its padding characters retained -
of its underlying bytes, and the signature is computed over exactly
the byte string base64url(header) ++ "." ++ base64url(claims).  The
parts contain no dot, so the three-way decomposition is unambiguous,
and the encoding length always matches padded base64. -/
theorem C7_jwt_structure (p : AccessTokenProvider) (now : Nat)
    (run : String → SubprocessResult) :
    _create_jwt p now run =
      _json_to_b64 (jwtHeader p) ++ "." ++ _json_to_b64 (jwtClaim p now) ++ "." ++
      base64UrlEncode (run (_json_to_b64 (jwtHeader p) ++ "." ++
        _json_to_b64 (jwtClaim p now))).stdout ∧
    _json_to_b64 (jwtHeader p) =
      base64UrlEncode (utf8Encode (dumpsCompact (jwtHeader p))) ∧
    _json_to_b64 (jwtClaim p now) =
      base64UrlEncode (utf8Encode (dumpsCompact (jwtClaim p now))) ∧
    (_json_to_b64 (jwtHeader p)).data.all isB64UrlChar = true ∧
    (_json_to_b64 (jwtClaim p now)).data.all isB64UrlChar = true ∧
    (∀ bs : List Nat, (base64UrlEncode bs).data.all isB64UrlChar = true) ∧
    (_json_to_b64 (jwtHeader p)).data.contains '.' = false ∧
    (_json_to_b64 (jwtClaim p now)).data.contains '.' = false ∧
    (∀ bs : List Nat, (base64UrlEncode bs).data.contains '.' = false) ∧
    (∀ bs : List Nat, (base64UrlEncode bs).length = 4 * ((bs.length + 2) / 3)) := by
  have hdot : isB64UrlChar '.' = false := by decide
  refine ⟨rfl, rfl, rfl, b64Aux_all _, b64Aux_all _, fun bs => b64Aux_all bs,
    all_not_contains _ _ hdot _ (b64Aux_all _),
    all_not_contains _ _ hdot _ (b64Aux_all _),
    fun bs => all_not_contains _ _ hdot _ (b64Aux_all bs),
    fun bs => b64Aux_length bs⟩

/-- Claim C8: for every object path passed to get, get_metadata or
delete, the path segment embedded in the request URL is the
percent-encoding of the path with no characters excluded as safe:
every output character is either an unreserved byte or part of a
percent escape, so a path containing a slash (or any reserved
character) is fully encoded. -/
theorem C8_path_fully_encoded (name path : String) :
    Bucket.getUrl name path =
      Bucket.STORAGE_URL ++ "/b/" ++ name ++ "/o/" ++ quote path ++ "?alt=media" ∧
    Bucket.getMetadataUrl name path =
      Bucket.STORAGE_URL ++ "/b/" ++ name ++ "/o/" ++ quote path ∧
    Bucket.deleteUrl name path =
      Bucket.STORAGE_URL ++ "/b/" ++ name ++ "/o/" ++ quote path ∧
    (quote path).data.all isQuoteOutputChar = true ∧
    (quote path).data.contains '/' = false ∧
    quote ("/") = "%2F" := by
  refine ⟨rfl, rfl, rfl, quoteBytes_chars _ (utf8Encode_lt path), ?_, rfl⟩
  exact all_not_contains _ _ (by decide) _ (quoteBytes_chars _ (utf8Encode_lt path))

/-- Claim C9: every bucket operation (list, put, get, get_metadata,
delete) first obtains a token from the token provider and issues its
request with header Authorization equal to the token's token_type, a
space, and its access_token, and with header Accept-Encoding equal to
"gzip, identity". -/
theorem C9_authorized_headers (name : String) (now : Nat) (resp : TokenResponse)
    (cached : Option CachedToken) (disk : Option String)
    (pre : Option String) (path : String) (payload : List Nat) (ct : String) :
    let r := AccessTokenProvider.request_token now resp cached disk
    let auth := ("Authorization", r.token.token_type ++ " " ++ r.token.access_token)
    let ae := ("Accept-Encoding", "gzip, identity")
    (Bucket.listRequest name now resp cached disk pre).1.headers = [auth, ae] ∧
    (Bucket.listRequest name now resp cached disk pre).2 = r ∧
    (Bucket.putRequest name now resp cached disk path payload ct).1.headers =
      [auth, ae, ("Content-Type", ct), ("Content-Transfer-Encoding", "binary")] ∧
    (Bucket.putRequest name now resp cached disk path payload ct).2 = r ∧
    (Bucket.getRequest name now resp cached disk path).1.headers = [auth, ae] ∧
    (Bucket.getRequest name now resp cached disk path).2 = r ∧
    (Bucket.getMetadataRequest name now resp cached disk path).1.headers = [auth, ae] ∧
    (Bucket.getMetadataRequest name now resp cached disk path).2 = r ∧
    (Bucket.deleteRequest name now resp cached disk path).1.headers = [auth, ae] ∧
    (Bucket.deleteRequest name now resp cached disk path).2 = r :=
  ⟨rfl, rfl, rfl, rfl, rfl, rfl, rfl, rfl, rfl, rfl⟩

/-- Claim C10: the signing helper never inspects the signing
subprocess's exit status or error output and never raises on signing
failure: for two runs whose standard output agrees the produced
assertion is identical whatever the exit status and standard error;
the helper returns the url-safe base64 of whatever was written to
standard output, the empty string for empty output; and the assertion
still has exactly two dots, hence three dot-separated parts. -/
theorem C10_sign_ignores_failure (p : AccessTokenProvider) (now : Nat)
    (run run2 : String → SubprocessResult)
    (h : ∀ s, (run s).stdout = (run2 s).stdout) :
    _create_jwt p now run = _create_jwt p now run2 ∧
    (∀ r : SubprocessResult, _jwt_sign_b64 r = base64UrlEncode r.stdout) ∧
    (∀ rc : Int, ∀ err : List Nat, _jwt_sign_b64 ⟨rc, [], err⟩ = "") ∧
    (_create_jwt p now run).data.count '.' = 2 := by
  refine ⟨?_, fun r => rfl, fun rc err => rfl, ?_⟩
  · simp only [_create_jwt, _jwt_sign_b64, h]
  · have hdot : isB64UrlChar '.' = false := by decide
    have h1 : (base64UrlEncodeAux (utf8Encode (dumpsCompact (jwtHeader p)))).count '.' = 0 :=
      all_count_zero _ _ hdot _ (b64Aux_all _)
    have h2 : (base64UrlEncodeAux (utf8Encode (dumpsCompact (jwtClaim p now)))).count '.' = 0 :=
      all_count_zero _ _ hdot _ (b64Aux_all _)
    have h3 : (base64UrlEncodeAux ((run
        (String.mk (base64UrlEncodeAux (utf8Encode (dumpsCompact (jwtHeader p)))) ++ "." ++
         String.mk (base64UrlEncodeAux (utf8Encode (dumpsCompact (jwtClaim p now)))))).stdout)).count '.' = 0 :=
      all_count_zero _ _ hdot _ (b64Aux_all _)
    have mkData : ∀ l : List Char, (String.mk l).data = l := fun _ => rfl
    have hd : (("." : String)).data.count '.' = 1 := by decide
    simp only [_create_jwt, _jwt_sign_b64, _json_to_b64, base64UrlEncode,
      data_append, mkData, List.count_append, h1, h2, h3, hd]

/-- Witness for C10 at a concrete failed signing run: exit status 1
with empty standard output produces the same assertion as a
successful run with empty output. -/
theorem C10_sign_ignores_failure_witness :
    (∀ s : String,
        ((fun _ => (⟨1, [], [7]⟩ : SubprocessResult)) s).stdout =
        ((fun _ => (⟨0, [], []⟩ : SubprocessResult)) s).stdout) ∧
    _create_jwt ⟨"a@b", "K", none, 60, AccessTokenProvider.TOKEN_URL⟩ 0
        (fun _ => ⟨1, [], [7]⟩) =
      _create_jwt ⟨"a@b", "K", none, 60, AccessTokenProvider.TOKEN_URL⟩ 0
        (fun _ => ⟨0, [], []⟩) :=
  ⟨fun _ => rfl,
   (C10_sign_ignores_failure ⟨"a@b", "K", none, 60, AccessTokenProvider.TOKEN_URL⟩ 0
      (fun _ => ⟨1, [], [7]⟩) (fun _ => ⟨0, [], []⟩) (fun _ => rfl)).1⟩
